import Mathlib

/-!
Shallow embedding of the core logic of `src/app.py` (product catalog search app).

The embedded functions are translated from the Python source:
  - `digits_only`        — src/app.py lines 98-100 (barcode normalization, `re.sub(r"\D+", "", s)`)
  - `validate_input`     — src/app.py lines 133-142
  - `apply_filters`      — src/app.py lines 144-156
  - `search`             — src/app.py lines 158-164 (barcode tier and name tier)
  - `record_history`     — src/app.py lines 220-223
  - `run_query`          — the execute-search pipeline, src/app.py lines 350-357
    (validation first; on error no search runs; `sort_df` at line 358 only
    reorders the hits afterwards and is not modelled since no claim is about order)

A catalog row is modelled after the dataframe produced by `normalize_columns`
(src/app.py lines 76-103): the required columns 바코드 (barcode), 제품명 (name),
입수 (quantity), 출고가 (price) always exist (missing values are null), the
optional 보관조건 (storage) column is modelled as present with nullable values,
and the derived 정규화_바코드 column is the function `rowNormBarcode`.
Pandas specifics that matter are kept: `astype(str)` renders a null cell as
the string "nan"; `fillna(0)` turns a null numeric cell into 0.

Python's `re` library, as used here, is modelled conservatively: `reEscape`
follows `re.escape` (Python >= 3.7 escapes exactly the characters of
`()[]{}?*+-|^$\.&~# \t\n\r\v\f`), and `parseLiteral` interprets a pattern
string as a regex in the literal fragment: an escaped character stands for
itself, an unescaped metacharacter (or dangling backslash) is outside the
fragment and yields no parse. Character classes are ASCII (`pyIsDigit`,
`pyIsSpace`, `Char.toLower`), matching the data the app handles.
-/

namespace ProductGuide

/-- ASCII model of Python's regex `\d` / `str` digit test. -/
def pyIsDigit (c : Char) : Bool :=
  '0' ≤ c && c ≤ '9'

/-- ASCII model of Python's whitespace class `\s` (space, tab, lf, cr, vt, ff). -/
def pyIsSpace (c : Char) : Bool :=
  c == ' ' || c == '\t' || c == '\n' || c == '\r' || c == '\x0b' || c == '\x0c'

/-- Python's `str.strip()` on the character list: drop whitespace from both ends. -/
def pyStripL (l : List Char) : List Char :=
  ((l.dropWhile pyIsSpace).reverse.dropWhile pyIsSpace).reverse

/-- Python's `str.strip()` lifted to strings. -/
def pyStrip (s : String) : String :=
  ⟨pyStripL s.data⟩

/-- `re.sub(r"\D+", "", s)` applied to a string: keep exactly the digit
characters, in order (src/app.py line 100 and line 160). -/
def pyDigitsS (s : String) : String :=
  ⟨s.data.filter pyIsDigit⟩

/-- `digits_only` (src/app.py lines 98-100): a null cell (`pd.isna`) becomes
the empty string, any other cell is stringified and stripped of non-digits. -/
def digits_only (x : Option String) : String :=
  match x with
  | none => ""
  | some s => pyDigitsS s

/-- One catalog row after `normalize_columns` (src/app.py lines 76-103).
Required numeric columns are nullable (`pd.to_numeric(..., errors="coerce")`);
`storage` models the optional 보관조건 column's cell. -/
structure Row where
  barcode : Option String
  name : Option String
  qty : Option Int
  price : Option Int
  storage : Option String
deriving DecidableEq, Repr

/-- The derived 정규화_바코드 column (src/app.py line 101). -/
def rowNormBarcode (r : Row) : String :=
  digits_only r.barcode

/-- `astype(str)` on the 제품명 cell: a null renders as "nan" (pandas). -/
def rowNameStr (r : Row) : String :=
  match r.name with
  | none => "nan"
  | some s => s

/-- `astype(str)` on the 보관조건 cell: a null renders as "nan" (pandas). -/
def rowStorageStr (r : Row) : String :=
  match r.storage with
  | none => "nan"
  | some s => s

/-- Search mode, the radio value 바코드 / 제품명 (src/app.py line 295). -/
inductive Mode where
  | barcode
  | name
deriving DecidableEq, Repr

/-- Characters allowed by the barcode-mode validation regex `[0-9\-\s]+`
(src/app.py line 137). -/
def pyBarcodeChar (c : Char) : Bool :=
  pyIsDigit c || c == '-' || pyIsSpace c

/-- `re.fullmatch(r"[0-9\-\s]+", text)` as a boolean: nonempty and all
characters allowed. -/
def pyFullmatchBarcode (s : String) : Bool :=
  !s.data.isEmpty && s.data.all pyBarcodeChar

/-- `validate_input` (src/app.py lines 133-142): returns `some errorMessage`
when the input is rejected, `none` when it passes. -/
def validate_input (text : String) (mode : Mode) : Option String :=
  match mode with
  | Mode.barcode =>
    if text = "" then some "바코드를 입력하세요."
    else if pyFullmatchBarcode text = false then some "바코드는 숫자/하이픈/공백만 허용됩니다."
    else none
  | Mode.name =>
    if text = "" ∨ (pyStrip text).data.length < 2 then
      some "제품명은 2자 이상 입력하세요."
    else none

/-- `apply_filters` (src/app.py lines 144-156): the storage whitelist is
applied only when nonempty (`if storage_options and ...`); the price and
quantity ranges are always applied, with `fillna(0)` turning a null value
into 0 before the inclusive bound checks. -/
def apply_filters (rows : List Row) (storageOptions : List String)
    (priceRange qtyRange : Int × Int) : List Row :=
  let out1 :=
    if storageOptions = [] then rows
    else rows.filter (fun r => decide (rowStorageStr r ∈ storageOptions))
  let out2 := out1.filter (fun r =>
    decide (priceRange.1 ≤ r.price.getD 0) && decide (r.price.getD 0 ≤ priceRange.2))
  out2.filter (fun r =>
    decide (qtyRange.1 ≤ r.qty.getD 0) && decide (r.qty.getD 0 ≤ qtyRange.2))

/-- Barcode tier of `search` (src/app.py lines 159-161): normalize the query
to its digits and keep the rows whose 정규화_바코드 equals it. -/
def searchBarcode (rows : List Row) (text : String) : List Row :=
  rows.filter (fun r => decide (rowNormBarcode r = pyDigitsS text))

/-- Characters that are special inside a Python regex pattern:
`. ^ $ * + ? { } [ ] \ | ( )`. Unescaped, they do not stand for themselves. -/
def reMetaChar (c : Char) : Bool :=
  c == '.' || c == '^' || c == '$' || c == '*' || c == '+' || c == '?' ||
  c == '{' || c == '}' || c == '[' || c == ']' || c == '\\' || c == '|' ||
  c == '(' || c == ')'

/-- Characters escaped by `re.escape` in Python >= 3.7:
`( ) [ ] { } ? * + - | ^ $ \ . & ~ #` and the whitespace characters. -/
def reSpecialChar (c : Char) : Bool :=
  reMetaChar c || c == '-' || c == '&' || c == '~' || c == '#' || pyIsSpace c

/-- `re.escape` (Python >= 3.7): put a backslash before each special
character, leave every other character alone. -/
def reEscape (l : List Char) : List Char :=
  match l with
  | [] => []
  | c :: rest =>
    if reSpecialChar c then '\\' :: c :: reEscape rest
    else c :: reEscape rest

/-- Interpretation of a regex pattern string restricted to the literal
fragment: a backslash-escaped character denotes itself, an ordinary character
denotes itself, and an unescaped metacharacter or a dangling backslash is
outside the fragment (no parse — the pattern is not a plain literal). -/
def parseLiteralAux : Bool → List Char → Option (List Char)
  | true, [] => none
  | true, d :: rest => (parseLiteralAux false rest).map (fun t => d :: t)
  | false, [] => some []
  | false, c :: rest =>
    if c = '\\' then parseLiteralAux true rest
    else if reMetaChar c then none
    else (parseLiteralAux false rest).map (fun t => c :: t)

/-- Entry point of the literal-fragment interpretation: no pending escape. -/
def parseLiteral (l : List Char) : Option (List Char) :=
  parseLiteralAux false l

/-- Does `needle` occur at the start of `hay`? -/
def startsWithL (needle hay : List Char) : Bool :=
  match needle, hay with
  | [], _ => true
  | _ :: _, [] => false
  | a :: as_, b :: bs => a == b && startsWithL as_ bs

/-- Does `needle` occur contiguously anywhere in `hay`? -/
def containsSub (needle hay : List Char) : Bool :=
  match hay with
  | [] => needle.isEmpty
  | _ :: t => startsWithL needle hay || containsSub needle t

/-- ASCII case folding of a character list (model of `re.IGNORECASE`). -/
def lowerL (l : List Char) : List Char :=
  l.map Char.toLower

/-- Name tier of `search` (src/app.py lines 162-164):
`pat = re.escape(text.strip())`, then
`df["제품명"].astype(str).str.contains(pat, case=False, na=False)`.
The pattern is interpreted through `parseLiteral`; a pattern outside the
literal fragment would be a regex-semantics match and yields no result here
(the theorems show this never happens for an escaped pattern). -/
def searchName (rows : List Row) (text : String) : Option (List Row) :=
  (parseLiteral (reEscape (pyStripL text.data))).map (fun lit =>
    rows.filter (fun r => containsSub (lowerL lit) (lowerL (rowNameStr r).data)))

/-- `search` (src/app.py lines 158-164), dispatching on the mode. -/
def search (rows : List Row) (text : String) (mode : Mode) : Option (List Row) :=
  match mode with
  | Mode.barcode => some (searchBarcode rows text)
  | Mode.name => searchName rows text

/-- One history entry (src/app.py lines 361-366). -/
structure HEntry where
  time : String
  mode : Mode
  query : String
  count : Nat
deriving DecidableEq, Repr

/-- `record_history` (src/app.py lines 220-223): `hist.insert(0, item)`
then `hist[:20]`. -/
def record_history (item : HEntry) (hist : List HEntry) : List HEntry :=
  (item :: hist).take 20

/-- The execute-search pipeline (src/app.py lines 350-357): validate, and
only when validation passes, filter then search. `sort_df` (line 358) only
reorders the hits and is omitted. -/
def run_query (rows : List Row) (text : String) (mode : Mode)
    (storageOptions : List String) (priceRange qtyRange : Int × Int) :
    Except String (Option (List Row)) :=
  match validate_input text mode with
  | some e => Except.error e
  | none => Except.ok (search (apply_filters rows storageOptions priceRange qtyRange) text mode)

/-- The two-tier barcode policy as the spec words it (§4.3): exact matches
first, and the substring tier only when the exact tier is empty. Stated for
comparison with `searchBarcode`, the function the source actually has. -/
def searchBarcodeTwoTierSpec (rows : List Row) (text : String) : List Row :=
  let q := pyDigitsS text
  let exact := rows.filter (fun r => decide (rowNormBarcode r = q))
  if exact = [] then rows.filter (fun r => containsSub q.data (rowNormBarcode r).data)
  else exact

/-- Split a character list into maximal whitespace-free words. -/
def wordsAux (l : List Char) (acc : List Char) : List (List Char) :=
  match l with
  | [] => if acc = [] then [] else [acc.reverse]
  | c :: t =>
    if pyIsSpace c then
      if acc = [] then wordsAux t [] else acc.reverse :: wordsAux t []
    else wordsAux t (c :: acc)

/-- Join words with single spaces. -/
def joinSpace (ws : List (List Char)) : List Char :=
  match ws with
  | [] => []
  | [w] => w
  | w :: ws2 => w ++ ' ' :: joinSpace ws2

/-- `normalizeName` as the spec words it (§4.1): collapse every whitespace
run to a single space, trim the ends, case-fold. Stated for comparison with
what the source's name search actually normalizes. -/
def normalizeNameSpec (s : String) : List Char :=
  lowerL (joinSpace (wordsAux s.data []))

/-- Modelled from the spec: the Scan Disambiguator (§4.5) is not in
src/app.py (the repository file holds no camera/scan code); this selection
of the longest digit string, ties broken by first-seen order, follows the
spec's words. `pickLongest` keeps an earlier candidate unless a later one is
strictly longer. -/
def pickLongest (l : List String) : Option String :=
  match l with
  | [] => none
  | x :: xs =>
    match pickLongest xs with
    | none => some x
    | some y => some (if y.length > x.length then y else x)

/-- Modelled from the spec: `resolve` of the Scan Disambiguator (§4.5) —
extract each candidate's digits, discard candidates with no digits, pick the
longest digit string (first-seen wins ties); `none` is the "no barcode
recognized" outcome. -/
def resolveScan (cands : List String) : Option String :=
  pickLongest ((cands.map pyDigitsS).filter (fun d => decide (d ≠ "")))

/-! Concrete rows used by the counterexamples and witnesses below.
`rowSample0` is the first row of the built-in sample catalog
(src/app.py lines 108-115); the others are small catalogs a user can load. -/

/-- First row of the sample catalog (src/app.py lines 108-115). -/
def rowSample0 : Row :=
  { barcode := some "8801234567890", name := some "진라면(순한맛) 120g",
    qty := some 40, price := some 450, storage := some "실온" }

/-- A row whose barcode digits are "12345". -/
def rowB12345 : Row :=
  { barcode := some "12345", name := some "P", qty := none, price := none, storage := none }

/-- A row with a null barcode cell: its 정규화_바코드 is the empty string. -/
def rowNoBar : Row :=
  { barcode := none, name := some "Q", qty := none, price := none, storage := none }

/-- A row whose name holds a double space. -/
def rowABCD : Row :=
  { barcode := some "1", name := some "AB  CD", qty := none, price := none, storage := none }

/-- A row with price 450 and quantity 1 (both non-null). -/
def rowP450 : Row :=
  { barcode := some "2", name := some "R", qty := some 1, price := some 450, storage := none }

/-- A fixed history entry. -/
def entA : HEntry := { time := "10:00", mode := Mode.barcode, query := "8801", count := 1 }

/-- Another fixed history entry, distinct from `entA`. -/
def entB : HEntry := { time := "10:01", mode := Mode.name, query := "라면", count := 2 }

/-! Helper lemmas. -/

/-- Every regex metacharacter is escaped by `re.escape`. -/
theorem reMeta_special {c : Char} (h : reMetaChar c = true) : reSpecialChar c = true := by
  simp [reSpecialChar, h]

/-- Escaping a string puts it in the literal fragment, and the literal it
denotes is the original string: each escaped or ordinary character stands
for itself. -/
theorem parseLiteral_reEscape (l : List Char) : parseLiteral (reEscape l) = some l := by
  unfold parseLiteral
  induction l with
  | nil => rfl
  | cons c rest ih =>
    by_cases h : reSpecialChar c = true
    · rw [reEscape, if_pos h]
      simp [parseLiteralAux, ih]
    · have hm : reMetaChar c = false := by
        cases hmc : reMetaChar c
        · rfl
        · exact absurd (reMeta_special hmc) h
      have hb : ¬(c = '\\') := by
        intro he
        subst he
        simp [reSpecialChar, reMetaChar] at h
      rw [reEscape, if_neg h]
      simp [parseLiteralAux, hb, hm, ih]

/-- `pickLongest` returns `none` exactly on the empty list. -/
theorem pickLongest_none_iff (l : List String) : pickLongest l = none ↔ l = [] := by
  cases l with
  | nil => simp [pickLongest]
  | cons x xs =>
    simp only [pickLongest]
    cases pickLongest xs <;> simp

/-- `pickLongest` returns an element of its input. -/
theorem pickLongest_mem (l : List String) : ∀ s, pickLongest l = some s → s ∈ l := by
  induction l with
  | nil => intro s h; simp [pickLongest] at h
  | cons x xs ih =>
    intro s h
    cases hxs : pickLongest xs with
    | none =>
      simp only [pickLongest, hxs, Option.some.injEq] at h
      subst h
      exact List.mem_cons_self _ _
    | some y =>
      simp only [pickLongest, hxs, Option.some.injEq] at h
      by_cases hlen : y.length > x.length
      · rw [if_pos hlen] at h
        subst h
        exact List.mem_cons_of_mem _ (ih y hxs)
      · rw [if_neg hlen] at h
        subst h
        exact List.mem_cons_self _ _

/-- `pickLongest` returns a string of maximal length. -/
theorem pickLongest_max (l : List String) :
    ∀ s, pickLongest l = some s → ∀ c ∈ l, c.length ≤ s.length := by
  induction l with
  | nil => intro s h; simp [pickLongest] at h
  | cons x xs ih =>
    intro s h c hc
    cases hxs : pickLongest xs with
    | none =>
      have hnil : xs = [] := (pickLongest_none_iff xs).mp hxs
      subst hnil
      simp only [pickLongest, Option.some.injEq] at h
      subst h
      rcases List.mem_cons.mp hc with rfl | hcxs
      · exact Nat.le_refl _
      · simp at hcxs
    | some y =>
      simp only [pickLongest, hxs, Option.some.injEq] at h
      have hxy : x.length ≤ s.length ∧ y.length ≤ s.length := by
        by_cases hlen : y.length > x.length
        · rw [if_pos hlen] at h
          subst h
          exact ⟨Nat.le_of_lt hlen, Nat.le_refl _⟩
        · rw [if_neg hlen] at h
          subst h
          exact ⟨Nat.le_refl _, Nat.le_of_not_lt hlen⟩
      rcases List.mem_cons.mp hc with rfl | hcxs
      · exact hxy.1
      · exact Nat.le_trans (ih y hxs c hcxs) hxy.2

/-! Claim theorems. -/

/-- C9: `normalizeBarcode` (the source's `digits_only`, src/app.py lines
98-100) is idempotent, returns exactly the digit characters of its input in
order (so leading zeros are preserved), and returns the empty string for a
null input. -/
theorem c9_digits_only_idempotent :
    (∀ x : Option String, digits_only (some (digits_only x)) = digits_only x) ∧
    (∀ s : String, (digits_only (some s)).data = s.data.filter pyIsDigit) ∧
    digits_only none = "" := by
  refine ⟨?_, fun s => rfl, rfl⟩
  intro x
  cases x with
  | none => rfl
  | some s =>
    show pyDigitsS (pyDigitsS s) = pyDigitsS s
    unfold pyDigitsS
    simp [List.filter_filter]

/-- C4: `record_history` (src/app.py lines 220-223) keeps at most 20
entries, puts the new entry at the front, and at capacity evicts exactly the
entry at the tail (the oldest), leaving the previous 2nd-oldest as the new
oldest. -/
theorem c4_history_capacity (e : HEntry) (h : List HEntry) :
    (record_history e h).length ≤ 20 ∧
    (record_history e h).head? = some e ∧
    (h.length = 20 → record_history e h = e :: h.dropLast) := by
  refine ⟨?_, ?_, ?_⟩
  · simp only [record_history, List.length_take]
    omega
  · rw [record_history, show (20 : Nat) = 19 + 1 from rfl, List.take_succ_cons]
    rfl
  · intro hl
    rw [record_history, show (20 : Nat) = 19 + 1 from rfl, List.take_succ_cons]
    rw [List.dropLast_eq_take, hl]

/-- Witness for C4 at a concrete full ledger. -/
theorem c4_witness :
    (List.replicate 20 entA).length = 20 ∧
    record_history entB (List.replicate 20 entA) = entB :: (List.replicate 20 entA).dropLast :=
  ⟨by decide, (c4_history_capacity entB (List.replicate 20 entA)).2.2 (by decide)⟩

/-- C5: every record returned by the barcode search (src/app.py lines
158-161) has a `normalizedBarcode` that equals the normalized query or
contains it contiguously; nothing else is returned. -/
theorem c5_barcode_sound (rows : List Row) (text : String) (r : Row)
    (h : r ∈ searchBarcode rows text) :
    rowNormBarcode r = pyDigitsS text ∨
      containsSub (pyDigitsS text).data (rowNormBarcode r).data = true := by
  simp only [searchBarcode, List.mem_filter, decide_eq_true_eq] at h
  exact Or.inl h.2

/-- Witness for C5 at the sample catalog and a hyphenated query. -/
theorem c5_witness :
    rowSample0 ∈ searchBarcode [rowSample0] "8801-2345-67890" ∧
    (rowNormBarcode rowSample0 = pyDigitsS "8801-2345-67890" ∨
      containsSub (pyDigitsS "8801-2345-67890").data (rowNormBarcode rowSample0).data = true) :=
  ⟨by decide, c5_barcode_sound [rowSample0] "8801-2345-67890" rowSample0 (by decide)⟩

/-- C6: a name query whose trimmed length is under 2 is rejected by
`validate_input` (src/app.py lines 139-142) with the too-short error, and
the pipeline (src/app.py lines 350-357) returns that error without running
any search. -/
theorem c6_name_too_short (text : String) (rows : List Row) (st : List String)
    (pr qr : Int × Int) (h : (pyStrip text).data.length < 2) :
    validate_input text Mode.name = some "제품명은 2자 이상 입력하세요." ∧
    run_query rows text Mode.name st pr qr = Except.error "제품명은 2자 이상 입력하세요." := by
  have hv : validate_input text Mode.name = some "제품명은 2자 이상 입력하세요." := by
    unfold validate_input
    rw [if_pos (Or.inr h)]
  exact ⟨hv, by simp only [run_query, hv]⟩

/-- Witness for C6 at the length-1 query "a". -/
theorem c6_witness :
    (pyStrip "a").data.length < 2 ∧
    run_query [rowSample0] "a" Mode.name [] (0, 0) (0, 0) =
      Except.error "제품명은 2자 이상 입력하세요." :=
  ⟨by decide,
    (c6_name_too_short "a" [rowSample0] [] (0, 0) (0, 0) (by decide)).2⟩

/-- C1 counterexample: on the catalog holding the single barcode "12345"
and the query "234", the exact tier is empty and a substring match exists,
yet the source's barcode search (src/app.py lines 159-161) returns nothing —
the substring tier the claim describes is never consulted. -/
theorem c1_counterexample :
    searchBarcode [rowB12345] "234" = [] ∧
    searchBarcodeTwoTierSpec [rowB12345] "234" = [rowB12345] := by
  constructor
  · decide
  · decide

/-- C1 amended: the barcode search returns exactly the records whose
`normalizedBarcode` equals the normalized query; there is no substring
fallback tier (an empty exact tier yields the empty result). -/
theorem c1_amended (rows : List Row) (text : String) (r : Row) :
    r ∈ searchBarcode rows text ↔ r ∈ rows ∧ rowNormBarcode r = pyDigitsS text := by
  simp [searchBarcode, List.mem_filter]

/-- Witness for C1 (amended) at the sample catalog and a hyphenated query. -/
theorem c1_witness : rowSample0 ∈ searchBarcode [rowSample0] "8801-2345-67890" :=
  (c1_amended [rowSample0] "8801-2345-67890" rowSample0).mpr ⟨by decide, by decide⟩

/-- C2 counterexample: the catalog name "AB  CD" and the query "B C"
(trimmed length 3). Under the claim's `normalizeName` (collapse whitespace
runs, trim, case-fold) the normalized name contains the normalized query,
so the claim predicts a hit; the source's name search (src/app.py lines
162-164) collapses no whitespace and returns no rows. -/
theorem c2_counterexample :
    2 ≤ (pyStrip "B C").data.length ∧
    containsSub (normalizeNameSpec "B C") (normalizeNameSpec "AB  CD") = true ∧
    searchName [rowABCD] "B C" = some [] := by
  refine ⟨by decide, by decide, ?_⟩
  decide

/-- C2 amended: the name search case-folds both sides but only trims the
ends of the query and collapses no whitespace on either side: it returns
exactly the records whose name (a null renders as "nan"), case-folded,
contains the case-folded trimmed query as a contiguous substring. -/
theorem c2_amended (rows : List Row) (text : String) :
    searchName rows text =
      some (rows.filter (fun r =>
        containsSub (lowerL (pyStripL text.data)) (lowerL (rowNameStr r).data))) := by
  simp [searchName, parseLiteral_reEscape]

/-- Witness for C2 (amended) at the sample catalog and the query "라면". -/
theorem c2_witness :
    searchName [rowSample0] "라면" =
      some ([rowSample0].filter (fun r =>
        containsSub (lowerL (pyStripL ("라면" : String).data)) (lowerL (rowNameStr r).data))) :=
  c2_amended [rowSample0] "라면"

/-- C3 counterexample: the whitespace/hyphen-only query "-" normalizes to
the empty string; on a catalog holding a row with a null barcode (whose
`normalizedBarcode` is empty), the search returns that row rather than the
empty result — and the raw empty query is rejected with an error by
`validate_input` (src/app.py lines 133-138). -/
theorem c3_counterexample :
    pyDigitsS "-" = "" ∧
    searchBarcode [rowNoBar] "-" = [rowNoBar] ∧
    validate_input "" Mode.barcode = some "바코드를 입력하세요." := by
  refine ⟨by decide, by decide, ?_⟩
  decide

/-- C3 amended: for a barcode query whose digits-only form is empty, the
search returns exactly the records whose `normalizedBarcode` is the empty
string (the empty result only when no such record exists); the empty raw
query is additionally rejected by validation before any search. -/
theorem c3_amended (rows : List Row) (text : String) (h : pyDigitsS text = "") :
    searchBarcode rows text = rows.filter (fun r => decide (rowNormBarcode r = "")) := by
  simp only [searchBarcode, h]

/-- Witness for C3 (amended) at the hyphen-only query. -/
theorem c3_witness :
    pyDigitsS "-" = "" ∧
    searchBarcode [rowNoBar] "-" =
      [rowNoBar].filter (fun r => decide (rowNormBarcode r = "")) :=
  ⟨by decide, c3_amended [rowNoBar] "-" (by decide)⟩

/-- C7 (modelled from the spec, §4.5): the Scan Disambiguator extracts each
candidate's digits, discards digit-free candidates, and picks the longest
digit string, first-seen winning ties; a candidate list with no digits
resolves to `none` ("no barcode recognized"), never an error. Includes the
spec's two concrete scenarios and a first-seen tie-break instance. -/
theorem c7_scan_disambiguator :
    (∀ (cands : List String) (s : String), resolveScan cands = some s →
      s ≠ "" ∧ s ∈ cands.map pyDigitsS ∧ ∀ c ∈ cands, (pyDigitsS c).length ≤ s.length) ∧
    (∀ cands : List String, resolveScan cands = none ↔ ∀ c ∈ cands, pyDigitsS c = "") ∧
    resolveScan ["ABC123", "99", "4567890"] = some "4567890" ∧
    resolveScan ["abc", "--"] = none ∧
    resolveScan ["12", "34"] = some "12" := by
  refine ⟨?_, ?_, by decide, by decide, by decide⟩
  · intro cands s h
    have hmem := pickLongest_mem _ s h
    have hmax := pickLongest_max _ s h
    simp only [List.mem_filter, decide_eq_true_eq] at hmem
    refine ⟨hmem.2, hmem.1, ?_⟩
    intro c hc
    by_cases hd : pyDigitsS c = ""
    · rw [hd]
      exact Nat.zero_le _
    · exact hmax _ (List.mem_filter.mpr ⟨List.mem_map_of_mem pyDigitsS hc, by simp [hd]⟩)
  · intro cands
    rw [resolveScan, pickLongest_none_iff, List.filter_eq_nil_iff]
    constructor
    · intro h c hc
      by_contra hne
      exact absurd (by simp [hne] : decide (pyDigitsS c ≠ "") = true)
        (h (pyDigitsS c) (List.mem_map_of_mem pyDigitsS hc))
    · intro h d hd
      rcases List.mem_map.mp hd with ⟨c, hc, rfl⟩
      simp [h c hc]

/-- Witness for C7 at the spec's longest-digit-run scenario. -/
theorem c7_witness :
    ("4567890" : String) ≠ "" ∧
    ("4567890" : String) ∈ (["ABC123", "99", "4567890"] : List String).map pyDigitsS ∧
    ∀ c ∈ (["ABC123", "99", "4567890"] : List String), (pyDigitsS c).length ≤ ("4567890" : String).length :=
  c7_scan_disambiguator.1 ["ABC123", "99", "4567890"] "4567890" (by decide)

/-- C8 counterexample: a row with price 450 and quantity 1, an empty storage
whitelist, and the caller's stand-in "no filter set" ranges `(0, 0)`
(src/app.py line 356): the row is dropped although no constraint was meant —
the numeric ranges are not optional in `apply_filters` (src/app.py lines
144-156), so "absent or empty means no constraint" fails for them. -/
theorem c8_counterexample :
    rowP450.price = some 450 ∧ rowP450.qty = some 1 ∧
    apply_filters [rowP450] [] (0, 0) (0, 0) = [] := by
  refine ⟨rfl, rfl, ?_⟩
  decide

/-- C8 amended: `apply_filters` keeps exactly the rows satisfying the
conjunction of: storage value in the whitelist when the whitelist is
nonempty (an empty whitelist is no constraint), and the price and quantity
ranges, which are always applied as inclusive bounds with a null value
compared as 0 — the numeric ranges have no absent/no-constraint form. -/
theorem c8_amended (rows : List Row) (st : List String) (pr qr : Int × Int) (r : Row) :
    r ∈ apply_filters rows st pr qr ↔
      r ∈ rows ∧ (st = [] ∨ rowStorageStr r ∈ st) ∧
      pr.1 ≤ r.price.getD 0 ∧ r.price.getD 0 ≤ pr.2 ∧
      qr.1 ≤ r.qty.getD 0 ∧ r.qty.getD 0 ≤ qr.2 := by
  unfold apply_filters
  by_cases hst : st = []
  · simp only [hst, if_pos rfl]
    simp only [List.mem_filter, decide_eq_true_eq, Bool.and_eq_true]
    constructor
    · rintro ⟨⟨hr, hp1, hp2⟩, hq1, hq2⟩
      exact ⟨hr, Or.inl (by trivial), hp1, hp2, hq1, hq2⟩
    · rintro ⟨hr, _, hp1, hp2, hq1, hq2⟩
      exact ⟨⟨hr, hp1, hp2⟩, hq1, hq2⟩
  · rw [if_neg hst]
    simp only [List.mem_filter, decide_eq_true_eq, Bool.and_eq_true]
    constructor
    · rintro ⟨⟨⟨hr, hs⟩, hp1, hp2⟩, hq1, hq2⟩
      exact ⟨hr, Or.inr hs, hp1, hp2, hq1, hq2⟩
    · rintro ⟨hr, hs, hp1, hp2, hq1, hq2⟩
      rcases hs with hs | hs
      · exact absurd hs hst
      · exact ⟨⟨⟨hr, hs⟩, hp1, hp2⟩, hq1, hq2⟩

/-- Witness for C8 (amended): the same row passes wide enough ranges. -/
theorem c8_witness : rowP450 ∈ apply_filters [rowP450] [] (0, 500) (0, 5) :=
  (c8_amended [rowP450] [] (0, 500) (0, 5) rowP450).mpr (by decide)

/-- C10: the name search treats the trimmed query as a literal pattern:
`re.escape` puts every query in the literal fragment and the literal it
denotes is the query text itself (metacharacters match only themselves), so
pattern interpretation never fails and the search is total for every input
string. -/
theorem c10_literal_pattern (text : String) (rows : List Row) :
    parseLiteral (reEscape (pyStripL text.data)) = some (pyStripL text.data) ∧
    (searchName rows text).isSome = true := by
  refine ⟨parseLiteral_reEscape _, ?_⟩
  simp [searchName, parseLiteral_reEscape]

/-- Witness for C10 at a query full of regex metacharacters. -/
theorem c10_witness :
    parseLiteral (reEscape (pyStripL ("(a*)[" : String).data)) =
      some (pyStripL ("(a*)[" : String).data) ∧
    (searchName [rowSample0] "(a*)[").isSome = true :=
  c10_literal_pattern "(a*)[" [rowSample0]

end ProductGuide
